import Mathlib

/-!
Verification of the compliance / risk / maintenance core of the
django-react-project repository against its natural-language specification.

The embedding below translates the Python source shallowly into Lean:
- Django model rows become structures; querysets become lists.
- Dates and datetimes become integers (days, resp. hours, on an abstract
  timeline); the ambient clock is passed explicitly as `today` / `now`.
- Decimal / float arithmetic (risk modifiers, flight hours) becomes exact
  rational arithmetic over `Rat`.
- Methods that raise Django ValidationError become `Except String`.

Sources embedded:
- src/core/models.py       (ComplianceStatus, ComplianceRule, ComplianceCheck,
                            ComplianceMixin.compliance_status)
- src/core/compliance_engine.py (ComplianceEngine)
- src/sms/models.py        (RiskRegister scoring and validation)
- src/rpas/models.py       (F2MaintenanceSchedule, F2MaintenanceRequired)
-/

namespace DroneComp

/-- Three-color compliance status, from ComplianceStatus in src/core/models.py:
GREEN = compliant, YELLOW = warning, RED = non-compliant. -/
inductive ComplianceStatus
  | green
  | yellow
  | red
  deriving DecidableEq, Repr

open ComplianceStatus

/-- Worst-case combination of two statuses: red dominates, then yellow, then
green.  This is the aggregation order implemented both by
ComplianceMixin.compliance_status (src/core/models.py) and by the running
overall-status update in ComplianceEngine.check_object_compliance
(src/core/compliance_engine.py lines 133-140). -/
def worstCase : ComplianceStatus → ComplianceStatus → ComplianceStatus
  | red, _ => red
  | _, red => red
  | yellow, _ => yellow
  | _, yellow => yellow
  | green, green => green

/-- Modelled from the spec: the evaluation-type enum of dynamic compliance
rules (spec section 4.2).  The dynamic rule evaluation code
(ComplianceRule.evaluate_against_object and its evaluation_type / field_path /
threshold fields) is not present under src/ - only its callers
(src/core/compliance_engine.py) and rule fixtures
(src/create_dynamic_rules.py, which name exactly these seven type strings)
are. -/
inductive EvaluationType
  | boolean_true
  | exists_
  | equals
  | date_past
  | date_within_days
  | related_count
  | custom_method
  deriving DecidableEq, Repr

/-- A resolved field value of a domain object.  Dates are days on an abstract
integer timeline; `noneV` is Python None. -/
inductive FieldValue
  | boolV (b : Bool)
  | strV (s : String)
  | intV (n : Int)
  | dateV (d : Int)
  | noneV
  deriving DecidableEq, Repr

/-- A domain object (a row of any model using ComplianceMixin): a typed id
plus a flat field store keyed by field path, and the registered results of
custom-method compliance callbacks keyed by rule code. -/
structure DomainObject where
  objType : String
  objId : Nat
  fields : List (String × FieldValue)
  customChecks : List (String × Bool)
  deriving DecidableEq, Repr

/-- Modelled from the spec: FieldResolver (spec section 4.1), absent from
src/.  Resolves a field path on an object; an unknown path yields `none`
(found = false), which is not an error. -/
def resolve_field (obj : DomainObject) (path : String) : Option FieldValue :=
  obj.fields.lookup path

/-- ComplianceRule from src/core/models.py (rule_code, rule_name, severity,
is_active, check_frequency_hours), extended with the dynamic-evaluation
fields.  The dynamic fields (evaluation_type, field_path and the three
thresholds) are modelled from the spec (section 3, Rule): their defining code
is not under src/, only rule fixtures that set them. -/
structure ComplianceRule where
  rule_code : String
  rule_name : String
  severity : ComplianceStatus
  is_active : Bool
  check_frequency_hours : Nat
  evaluation_type : EvaluationType
  field_path : String
  threshold_value : FieldValue
  threshold_days : Nat
  threshold_numeric : Int
  deriving DecidableEq, Repr

/-- Result of evaluating one rule against one object: the fields of the dict
returned by ComplianceRule.evaluate_against_object that the engine consumes
(status and message), plus the rule code and the raw pass flag. -/
structure RuleEvalResult where
  rule_code : String
  status : ComplianceStatus
  message : String
  passed : Bool
  deriving DecidableEq, Repr

/-- A failing verdict: FAIL maps to the severity of the rule (spec 4.2). -/
def failResult (rule : ComplianceRule) (msg : String) : RuleEvalResult :=
  { rule_code := rule.rule_code, status := rule.severity, message := msg, passed := false }

/-- A passing verdict: PASS maps to green (spec 4.2). -/
def passResult (rule : ComplianceRule) (msg : String) : RuleEvalResult :=
  { rule_code := rule.rule_code, status := green, message := msg, passed := true }

/-- Non-empty test used by the exists evaluation: non-nil and, for strings,
non-empty (spec 4.2). -/
def isNonEmptyValue : FieldValue → Bool
  | .noneV => false
  | .strV s => !s.isEmpty
  | _ => true

/-- Modelled from the spec: ComplianceRule.evaluate_against_object (spec
section 4.2), whose implementation is not under src/.  One evaluation
strategy per evaluation type:
- boolean_true: value must equal true; false or not-found fails;
- exists: value must be present and non-empty;
- equals: typed comparison against threshold_value, mismatch fails;
- date_past: the resolved date must be at or after today, a date strictly
  before today fails (used for must-not-be-expired rules);
- date_within_days: the resolved date must lie within threshold_days of
  today;
- related_count: the resolved count must equal threshold_numeric;
- custom_method: delegates to the callback registered against the object,
  treated as opaque. -/
def evaluate_against_object (today : Int) (rule : ComplianceRule)
    (obj : DomainObject) : RuleEvalResult :=
  match rule.evaluation_type with
  | .boolean_true =>
    match resolve_field obj rule.field_path with
    | some (.boolV true) => passResult rule (rule.field_path ++ " is true")
    | _ => failResult rule (rule.field_path ++ " is not true")
  | .exists_ =>
    match resolve_field obj rule.field_path with
    | some v =>
      if isNonEmptyValue v then passResult rule (rule.field_path ++ " is present")
      else failResult rule (rule.field_path ++ " is missing or empty")
    | none => failResult rule (rule.field_path ++ " is missing or empty")
  | .equals =>
    match resolve_field obj rule.field_path with
    | some v =>
      if v = rule.threshold_value then passResult rule (rule.field_path ++ " matches expected value")
      else failResult rule (rule.field_path ++ " does not match expected value")
    | none => failResult rule (rule.field_path ++ " does not match expected value")
  | .date_past =>
    match resolve_field obj rule.field_path with
    | some (.dateV d) =>
      if d < today then failResult rule (rule.field_path ++ " expired before today")
      else passResult rule (rule.field_path ++ " is not expired")
    | _ => failResult rule (rule.field_path ++ " has no date value")
  | .date_within_days =>
    match resolve_field obj rule.field_path with
    | some (.dateV d) =>
      if (today - d).natAbs ≤ rule.threshold_days then
        passResult rule (rule.field_path ++ " is recent enough")
      else failResult rule (rule.field_path ++ " is too old")
    | _ => failResult rule (rule.field_path ++ " has no date value")
  | .related_count =>
    match resolve_field obj rule.field_path with
    | some (.intV n) =>
      if n = rule.threshold_numeric then
        passResult rule (rule.field_path ++ " count matches threshold")
      else failResult rule (rule.field_path ++ " count does not match threshold")
    | _ => failResult rule (rule.field_path ++ " has no count value")
  | .custom_method =>
    match obj.customChecks.lookup rule.rule_code with
    | some true => passResult rule (rule.rule_code ++ " custom check passed")
    | _ => failResult rule (rule.rule_code ++ " custom check failed")

/-- Embedding of ComplianceEngine._evaluate_rule
(src/core/compliance_engine.py lines 144-185): delegates to
evaluate_against_object and passes status and message through unchanged (the
remaining dict entries are evaluation metadata). -/
def engine_evaluate_rule (today : Int) (obj : DomainObject)
    (rule : ComplianceRule) : ComplianceStatus × String :=
  let r := evaluate_against_object today rule obj
  (r.status, r.message)

/-- ComplianceCheck from src/core/models.py: one check result per
(content_type, object_id, rule) triple (unique_together).  The foreign key to
the rule is embedded inline (a check row always resolves to its rule row);
last_checked is an auto_now timestamp, next_check_due is nullable.  The
details JSON blob, checked_by and created_at are evaluation metadata not
consumed by any control flow embedded here and are omitted. -/
structure ComplianceCheck where
  content_type : String
  object_id : Nat
  rule : ComplianceRule
  status : ComplianceStatus
  last_checked : Int
  next_check_due : Option Int
  deriving DecidableEq, Repr

/-- The persistent state the compliance engine reads and writes: the rule
table, the domain objects reachable through generic foreign keys, and the
check-result table. -/
structure EngineState where
  rules : List ComplianceRule
  objects : List DomainObject
  checks : List ComplianceCheck
  deriving DecidableEq, Repr

/-- Embedding of ComplianceEngine.get_applicable_rules
(src/core/compliance_engine.py lines 47-61): returns all active rules; the
model-class argument is accepted but not used by the source (the body is
`ComplianceRule.objects.filter(is_active=True)` with a comment that
model-specific filtering is future work). -/
def get_applicable_rules (_model_class : String) (s : EngineState) :
    List ComplianceRule :=
  s.rules.filter (fun r => r.is_active)

/-- The checks of one object whose rule is active, as queried by
ComplianceMixin.compliance_status (src/core/models.py lines 948-952). -/
def relevant_checks (s : EngineState) (obj : DomainObject) :
    List ComplianceCheck :=
  s.checks.filter (fun c =>
    c.content_type == obj.objType && c.object_id == obj.objId && c.rule.is_active)

/-- Embedding of ComplianceMixin.compliance_status (src/core/models.py lines
940-964): no checks means green (compliant by default); otherwise any red
check makes the object red, else any yellow makes it yellow, else green. -/
def compliance_status (s : EngineState) (obj : DomainObject) :
    ComplianceStatus :=
  let checks := relevant_checks s obj
  if checks.isEmpty then green
  else if checks.any (fun c => c.status == red) then red
  else if checks.any (fun c => c.status == yellow) then yellow
  else green

/-- The composite key of a check row (the unique_together constraint of
ComplianceCheck). -/
def checkKey (c : ComplianceCheck) : String × Nat × String :=
  (c.content_type, c.object_id, c.rule.rule_code)

/-- The fresh row produced by get_or_create when no check exists for the
(object, rule) pair: defaults status green, never yet checked. -/
def newCheck (obj : DomainObject) (rule : ComplianceRule) : ComplianceCheck :=
  { content_type := obj.objType, object_id := obj.objId, rule := rule,
    status := green, last_checked := 0, next_check_due := none }

/-- One write of the per-rule loop body of check_object_compliance
(src/core/compliance_engine.py lines 98-115): store the evaluation status,
refresh last_checked (auto_now on save), and apply
ComplianceCheck.update_next_check_due (src/core/models.py lines 920-926),
which resets next_check_due to now plus the rule frequency only when
check_frequency_hours is truthy (a zero frequency leaves next_check_due
untouched). -/
def stampCheck (now today : Int) (obj : DomainObject) (rule : ComplianceRule)
    (c : ComplianceCheck) : ComplianceCheck :=
  { c with
    rule := rule
    status := (evaluate_against_object today rule obj).status
    last_checked := now
    next_check_due :=
      if rule.check_frequency_hours ≠ 0 then
        some (now + (rule.check_frequency_hours : Int))
      else c.next_check_due }

/-- get_or_create followed by the field updates and save: the first row with
the (object, rule) key is overwritten in place; if none exists a fresh row is
created and stamped. -/
def upsertCheck (now today : Int) (obj : DomainObject) (rule : ComplianceRule) :
    List ComplianceCheck → List ComplianceCheck
  | [] => [stampCheck now today obj rule (newCheck obj rule)]
  | c :: rest =>
    if c.content_type == obj.objType && c.object_id == obj.objId
        && c.rule.rule_code == rule.rule_code then
      stampCheck now today obj rule c :: rest
    else
      c :: upsertCheck now today obj rule rest

/-- The results dict built by check_object_compliance
(src/core/compliance_engine.py lines 86-131). -/
structure ObjCheckResults where
  overall_status : ComplianceStatus
  checks_performed : Nat
  checks_passed : Nat
  checks_failed : Nat
  rule_results : List (String × ComplianceStatus × String)
  deriving DecidableEq, Repr

/-- The worst-case-wins update of the running overall status, exactly as in
src/core/compliance_engine.py lines 133-140: red always wins; yellow wins
unless the running status is already red; green changes nothing. -/
def stepOverall (overall status : ComplianceStatus) : ComplianceStatus :=
  if status = red then red
  else if status = yellow ∧ overall ≠ red then yellow
  else overall

/-- One iteration of the rule loop of check_object_compliance: evaluate the
rule, upsert the check row, and accumulate counters, per-rule results and the
running overall status. -/
def cocStep (now today : Int) (obj : DomainObject)
    (acc : ObjCheckResults × EngineState) (rule : ComplianceRule) :
    ObjCheckResults × EngineState :=
  let ev := evaluate_against_object today rule obj
  let res := acc.1
  let st := acc.2
  ({ overall_status := stepOverall res.overall_status ev.status
     checks_performed := res.checks_performed + 1
     checks_passed := if ev.status = green then res.checks_passed + 1 else res.checks_passed
     checks_failed := if ev.status = green then res.checks_failed else res.checks_failed + 1
     rule_results := res.rule_results ++ [(rule.rule_code, ev.status, ev.message)] },
   { st with checks := upsertCheck now today obj rule st.checks })

/-- Embedding of ComplianceEngine.check_object_compliance
(src/core/compliance_engine.py lines 63-142): defaults the rule list to all
applicable (= all active) rules, then folds the per-rule loop starting from
an overall status of green and empty counters. -/
def check_object_compliance (now today : Int) (obj : DomainObject)
    (rulesOpt : Option (List ComplianceRule)) (s : EngineState) :
    ObjCheckResults × EngineState :=
  let rules := match rulesOpt with
    | some rs => rs
    | none => get_applicable_rules obj.objType s
  rules.foldl (cocStep now today obj)
    ({ overall_status := green, checks_performed := 0, checks_passed := 0,
       checks_failed := 0, rule_results := [] }, s)

/-- The overdue predicate of ComplianceEngine.get_overdue_checks: the Django
filter next_check_due__lt=now excludes null next_check_due, and the rule must
be active. -/
def is_overdue_for (now : Int) (c : ComplianceCheck) : Bool :=
  (match c.next_check_due with
   | some d => decide (d < now)
   | none => false) && c.rule.is_active

/-- Embedding of ComplianceEngine.get_overdue_checks
(src/core/compliance_engine.py lines 225-236). -/
def get_overdue_checks (now : Int) (s : EngineState) : List ComplianceCheck :=
  s.checks.filter (is_overdue_for now)

/-- Key list in order of first appearance: the iteration order of the
insertion-ordered Python dict used to group overdue checks by object
(src/core/compliance_engine.py lines 260-266; Django model equality compares
class and primary key, so two checks of the same target share one dict
entry). -/
def firstKeys : List (String × Nat) → List (String × Nat)
  | [] => []
  | k :: rest => k :: firstKeys (rest.filter (fun x => x != k))
termination_by l => l.length
decreasing_by
  simp only [List.length_cons]
  exact Nat.lt_succ_of_le (List.length_filter_le _ _)

/-- Generic-foreign-key resolution of a (content_type, object_id) pair
against the object store. -/
def find_object (s : EngineState) (k : String × Nat) : Option DomainObject :=
  s.objects.find? (fun o => o.objType == k.1 && o.objId == k.2)

/-- The rules of the overdue checks grouped under one object key, in check
order (the lists appended into objects_to_check). -/
def rules_for_key (overdue : List ComplianceCheck) (k : String × Nat) :
    List ComplianceRule :=
  (overdue.filter (fun c => c.content_type == k.1 && c.object_id == k.2)).map
    (fun c => c.rule)

/-- One object group of the scheduled run: resolve the content object and,
when it resolves, run check_object_compliance with the rules of this group
(the unresolvable case records an error and writes nothing). -/
def runStep (now today : Int) (overdue : List ComplianceCheck)
    (st : EngineState) (k : String × Nat) : EngineState :=
  match find_object st k with
  | none => st
  | some obj =>
    (check_object_compliance now today obj (some (rules_for_key overdue k)) st).2

/-- Embedding of ComplianceEngine.run_scheduled_compliance_checks
(src/core/compliance_engine.py lines 238-286): select the overdue checks,
group them by content object, and run check_object_compliance per object with
that object's overdue rules.  A check whose content object cannot be resolved
takes the per-object exception path, which records the failure in the report
and writes nothing; the report dict itself is derived data and only the state
effect is modelled. -/
def run_scheduled_compliance_checks (now today : Int) (s : EngineState) :
    EngineState :=
  let overdue := get_overdue_checks now s
  let keys := firstKeys (overdue.map (fun c => (c.content_type, c.object_id)))
  keys.foldl (runStep now today overdue) s

/-! ## Risk scorer (src/sms/models.py, RiskRegister) -/

/-- The category of a risk entry (SMSCategory): carries the default
likelihood and consequence modifiers, exact rationals in place of the float
fields. -/
structure RiskCategory where
  code : String
  default_likelihood_modifier : Rat
  default_consequence_modifier : Rat
  deriving DecidableEq, Repr

/-- RiskRegister from src/sms/models.py: the scoring inputs (1-5 likelihood
and consequence scales), the derived rating strings, and the review
scheduling dates.  Identification, text and workflow fields are inert for the
embedded methods and omitted; risk-number generation and the F2 trigger need
the object store and do not touch the fields below. -/
structure RiskRegister where
  category : RiskCategory
  inherent_likelihood : Nat
  inherent_consequence : Nat
  residual_likelihood : Nat
  residual_consequence : Nat
  inherent_risk_rating : String
  residual_risk_rating : String
  assessment_date : Int
  review_date : Option Int
  deriving DecidableEq, Repr

/-- Embedding of RiskRegister.calculate_risk_rating (src/sms/models.py lines
293-315): multiply likelihood and consequence by the category modifiers,
take the product as the score, and band it: at least 20 extreme, at least 15
high, at least 8 medium, at least 3 low, else negligible. -/
def calculate_risk_rating (cat : RiskCategory) (likelihood consequence : Nat) :
    String :=
  let adjusted_likelihood : Rat := (likelihood : Rat) * cat.default_likelihood_modifier
  let adjusted_consequence : Rat := (consequence : Rat) * cat.default_consequence_modifier
  let risk_score : Rat := adjusted_likelihood * adjusted_consequence
  if 20 ≤ risk_score then "extreme"
  else if 15 ≤ risk_score then "high"
  else if 8 ≤ risk_score then "medium"
  else if 3 ≤ risk_score then "low"
  else "negligible"

/-- Embedding of RiskRegister.update_risk_ratings (src/sms/models.py lines
317-324): recompute both derived ratings from the current scores. -/
def update_risk_ratings (e : RiskRegister) : RiskRegister :=
  { e with
    inherent_risk_rating :=
      calculate_risk_rating e.category e.inherent_likelihood e.inherent_consequence
    residual_risk_rating :=
      calculate_risk_rating e.category e.residual_likelihood e.residual_consequence }

/-- The Python max builtin on two rationals. -/
def pyMax (a b : Rat) : Rat := if a ≤ b then b else a

/-- The Python min builtin on two rationals. -/
def pyMin (a b : Rat) : Rat := if b ≤ a then b else a

/-- Embedding of the RiskRegister.control_effectiveness property
(src/sms/models.py lines 326-340): raw (pre-modifier) likelihood times
consequence products; zero inherent score yields 0; otherwise the reduction
percentage clamped into [0, 100]. -/
def control_effectiveness (e : RiskRegister) : Rat :=
  let inherent_score : Rat := (e.inherent_likelihood : Rat) * (e.inherent_consequence : Rat)
  let residual_score : Rat := (e.residual_likelihood : Rat) * (e.residual_consequence : Rat)
  if inherent_score = 0 then 0
  else pyMax 0 (pyMin 100 ((inherent_score - residual_score) / inherent_score * 100))

/-- Embedding of RiskRegister.clean (src/sms/models.py lines 455-472): raise
ValidationError when the raw residual score exceeds the raw inherent score;
otherwise default a missing review date to one year after the assessment. -/
def riskClean (e : RiskRegister) : Except String RiskRegister :=
  let inherent_score := e.inherent_likelihood * e.inherent_consequence
  let residual_score := e.residual_likelihood * e.residual_consequence
  if inherent_score < residual_score then
    Except.error "Residual risk cannot be higher than inherent risk."
  else
    Except.ok
      { e with review_date :=
          match e.review_date with
          | none => some (e.assessment_date + 365)
          | some d => some d }

/-- Embedding of RiskRegister.save (src/sms/models.py lines 474-490):
update the derived ratings, then validate via clean; a validation error
aborts the save and leaves the stored entry untouched.  Risk-number
generation (before the ratings update) and the post-save F2 trigger act on
the object store and on other tables and change none of the fields embedded
here. -/
def riskSave (e : RiskRegister) : Except String RiskRegister :=
  riskClean (update_risk_ratings e)

/-! ## Maintenance trigger engine (src/rpas/models.py) -/

/-- The aircraft fields the maintenance scan reads: active flag and the
cumulative flight-hours counter (a Decimal in the source). -/
structure Aircraft where
  aid : Nat
  is_active : Bool
  current_flight_hours : Rat
  deriving DecidableEq, Repr

/-- The schedule-type choices of F2MaintenanceSchedule that drive control
flow; the remaining choices (cyclical, conditional, manufacturer,
operational) share the no-trigger behavior and are collapsed into other. -/
inductive ScheduleType
  | calendar
  | flight_hours
  | other
  deriving DecidableEq, Repr

/-- F2MaintenanceRequired from src/rpas/models.py (lines 1371-1460): one
maintenance work item.  The f2_header foreign key is flattened to the
(aircraft id, entry date) pair that identifies the RPASTechnicalLogPartA
header row (its get_or_create key); completion is tracked by the
completed_date field and the is_completed flag the scan queries. -/
structure F2MaintenanceRequired where
  f2_aircraft : Nat
  f2_entry_date : Int
  item : String
  due : Int
  completed_date : Option Int
  is_completed : Bool
  deriving DecidableEq, Repr

/-- F2MaintenanceSchedule from src/rpas/models.py (lines 2402-2537): the
trigger rule.  calendar_interval_days is a nullable positive integer (Python
truthiness treats both None and 0 as unset); flight_hours_interval is a
nullable Decimal. -/
structure F2MaintenanceSchedule where
  aircraft : Aircraft
  maintenance_item : String
  schedule_type : ScheduleType
  calendar_interval_days : Option Nat
  flight_hours_interval : Option Rat
  auto_generate_required : Bool
  advance_notice_days : Nat
  is_active : Bool
  manufacturer_schedule : Bool
  operational_override : Bool
  total_generated_items : Nat
  last_generated_date : Option Int
  deriving DecidableEq, Repr

/-- The stored maintenance data the scan reads and writes: the technical-log
headers (keyed by aircraft and entry date) and the maintenance work items. -/
structure MaintState where
  headers : List (Nat × Int)
  items : List F2MaintenanceRequired
  deriving DecidableEq, Repr

/-- Python truthiness of a nullable integer: None and 0 are falsy. -/
def truthyNat : Option Nat → Bool
  | none => false
  | some n => n ≠ 0

/-- Python truthiness of a nullable Decimal: None and 0 are falsy. -/
def truthyRat : Option Rat → Bool
  | none => false
  | some q => q ≠ 0

/-- ASCII lower-casing of one character, modelling the case folding of the
icontains lookup. -/
def asciiLower (c : Char) : Char :=
  if 65 ≤ c.toNat ∧ c.toNat ≤ 90 then Char.ofNat (c.toNat + 32) else c

/-- Substring containment on character lists. -/
def containsSub (needle : List Char) : List Char → Bool
  | [] => needle.isEmpty
  | c :: rest => needle.isPrefixOf (c :: rest) || containsSub needle rest

/-- The Django icontains lookup: case-insensitive substring containment. -/
def icontains (hay needle : String) : Bool :=
  containsSub (needle.toList.map asciiLower) (hay.toList.map asciiLower)

/-- Python string slicing s[:20] (by code point), used to build the
item-description match prefix. -/
def pyTake20 (s : String) : String :=
  String.mk (s.toList.take 20)

/-- The matching predicate of the last-maintenance query in
check_trigger_conditions: same aircraft, item description containing the
first twenty characters of the schedules maintenance item, completed. -/
def matchesCompleted (sched : F2MaintenanceSchedule) (a : Aircraft)
    (m : F2MaintenanceRequired) : Bool :=
  m.f2_aircraft == a.aid && icontains m.item (pyTake20 sched.maintenance_item)
    && m.is_completed

/-- The queryset of completed matching items for one schedule and
aircraft. -/
def completedMatching (items : List F2MaintenanceRequired)
    (sched : F2MaintenanceSchedule) (a : Aircraft) :
    List F2MaintenanceRequired :=
  items.filter (matchesCompleted sched a)

/-- Fold step selecting the row with the greatest completion date
(order_by descending completed_date, first).  A completed row always carries
a completion date (mark_completed validates all three completion fields);
a null date is read as 0. -/
def pickLater (acc : Option F2MaintenanceRequired) (m : F2MaintenanceRequired) :
    Option F2MaintenanceRequired :=
  match acc with
  | none => some m
  | some b => if b.completed_date.getD 0 < m.completed_date.getD 0 then some m else some b

/-- The last completed maintenance of this type for this aircraft, as queried
at src/rpas/models.py lines 2600-2611. -/
def lastCompletedMaintenance (items : List F2MaintenanceRequired)
    (sched : F2MaintenanceSchedule) (a : Aircraft) :
    Option F2MaintenanceRequired :=
  (completedMatching items sched a).foldl pickLater none

/-- Embedding of F2MaintenanceSchedule.check_trigger_conditions
(src/rpas/models.py lines 2587-2661).  An inactive schedule never triggers.
The calendar block runs when the type is calendar and the interval is
truthy: with no previous completed maintenance it triggers immediately;
with one, it triggers when the days since completion reach the interval
minus the advance notice, and otherwise falls through.  The flight-hours
block runs when the type is flight_hours and the interval is truthy,
comparing the aircraft cumulative hours against the interval minus a fixed
5-hour advance notice (the hours since last maintenance are simplified to
the cumulative counter in the source).  If no block returns, no trigger
conditions are met. -/
def check_trigger_conditions (today : Int)
    (items : List F2MaintenanceRequired) (sched : F2MaintenanceSchedule)
    (a : Aircraft) : Bool × String :=
  if sched.is_active = false then (false, "Schedule is inactive")
  else
    let calendarResult : Option (Bool × String) :=
      if sched.schedule_type = ScheduleType.calendar
          && truthyNat sched.calendar_interval_days then
        match lastCompletedMaintenance items sched a with
        | some m =>
          let days_since := today - m.completed_date.getD 0
          if (sched.calendar_interval_days.getD 0 : Int)
              - (sched.advance_notice_days : Int) ≤ days_since then
            some (true, "Calendar trigger: " ++ toString days_since
              ++ " days since last maintenance")
          else none
        | none => some (true, "Calendar trigger: No previous maintenance recorded")
      else none
    match calendarResult with
    | some r => r
    | none =>
      let hoursResult : Option (Bool × String) :=
        if sched.schedule_type = ScheduleType.flight_hours
            && truthyRat sched.flight_hours_interval then
          let current_hours := a.current_flight_hours
          match lastCompletedMaintenance items sched a with
          | some _ =>
            if sched.flight_hours_interval.getD 0 - 5 ≤ current_hours then
              some (true, "Flight hours trigger: " ++ toString current_hours
                ++ " hours since last maintenance")
            else none
          | none =>
            if sched.flight_hours_interval.getD 0 - 5 ≤ current_hours then
              some (true, "Flight hours trigger: Initial maintenance interval reached")
            else none
        else none
      match hoursResult with
      | some r => r
      | none => (false, "No trigger conditions met")

/-- Result bundle of generate_maintenance_requirement: the created row (or
None), the message, and the updated schedule row and store. -/
structure GenerateResult where
  requirement : Option F2MaintenanceRequired
  message : String
  schedule : F2MaintenanceSchedule
  state : MaintState
  deriving DecidableEq, Repr

/-- get_or_create of the RPASTechnicalLogPartA header for (aircraft, today). -/
def ensureHeader (st : MaintState) (aid : Nat) (today : Int) : MaintState :=
  if st.headers.contains (aid, today) then st
  else { st with headers := st.headers ++ [(aid, today)] }

/-- The due-date computation of generate_maintenance_requirement: starts at
today, advanced by advance_notice_days when the type is calendar with a
truthy interval, or (elif) when the type is flight_hours. -/
def generateDueDate (today : Int) (sched : F2MaintenanceSchedule) : Int :=
  if sched.schedule_type = ScheduleType.calendar
      && truthyNat sched.calendar_interval_days then
    today + (sched.advance_notice_days : Int)
  else if sched.schedule_type = ScheduleType.flight_hours then
    today + (sched.advance_notice_days : Int)
  else today

/-- The comprehensive item description: maintenance item plus trigger,
manufacturer-schedule and operational-requirement suffixes. -/
def generateItemDescription (sched : F2MaintenanceSchedule)
    (trigger_reason : String) : String :=
  sched.maintenance_item
    ++ (if trigger_reason ≠ "" then " [Trigger: " ++ trigger_reason ++ "]" else "")
    ++ (if sched.manufacturer_schedule then " [Manufacturer Schedule]" else "")
    ++ (if sched.operational_override then " [Operational Requirement]" else "")

/-- The F2MaintenanceRequired row created by
generate_maintenance_requirement: uncompleted, attached to the header of
today. -/
def generateRow (today : Int) (sched : F2MaintenanceSchedule)
    (trigger_reason : String) : F2MaintenanceRequired :=
  { f2_aircraft := sched.aircraft.aid, f2_entry_date := today,
    item := generateItemDescription sched trigger_reason,
    due := generateDueDate today sched,
    completed_date := none, is_completed := false }

/-- Embedding of F2MaintenanceSchedule.generate_maintenance_requirement
(src/rpas/models.py lines 2663-2716).  Disabled auto-generation creates
nothing.  Otherwise: get-or-create the header for today; the due date starts
at today and is advanced by advance_notice_days when the type is calendar
with a truthy interval, or (elif) when the type is flight_hours; the item
description is the maintenance item plus trigger/manufacturer/operational
suffixes; one F2MaintenanceRequired row is created (uncompleted); the
schedule counter is incremented and its last-generated timestamp set.  The
UUID in the returned message is not modelled. -/
def generate_maintenance_requirement (today : Int) (st : MaintState)
    (sched : F2MaintenanceSchedule) (trigger_reason : String) : GenerateResult :=
  if sched.auto_generate_required = false then
    { requirement := none, message := "Auto-generation disabled for this schedule",
      schedule := sched, state := st }
  else
    let st := ensureHeader st sched.aircraft.aid today
    let row := generateRow today sched trigger_reason
    { requirement := some row
      message := "Generated maintenance requirement"
      schedule := { sched with
        total_generated_items := sched.total_generated_items + 1
        last_generated_date := some today }
      state := { st with items := st.items ++ [row] } }

/-- Embedding of F2MaintenanceSchedule.get_applicable_aircraft
(src/rpas/models.py lines 2579-2585): the single assigned aircraft when it
is active, else nothing. -/
def get_applicable_aircraft (sched : F2MaintenanceSchedule) : List Aircraft :=
  if sched.aircraft.is_active then [sched.aircraft] else []

/-- One per-aircraft entry of the scan report. -/
structure ScanEntry where
  aircraft : Nat
  triggered : Bool
  reason : String
  requirement_generated : Bool
  deriving DecidableEq, Repr

/-- Result bundle of one scan: the report, the updated schedule row and the
updated store. -/
structure ScanResult where
  results : List ScanEntry
  schedule : F2MaintenanceSchedule
  state : MaintState
  deriving DecidableEq, Repr

/-- Embedding of F2MaintenanceSchedule.scan_all_applicable_aircraft
(src/rpas/models.py lines 2718-2754): for each applicable aircraft, check
the trigger conditions and, when triggered, generate the requirement. -/
def scan_all_applicable_aircraft (today : Int) (st : MaintState)
    (sched : F2MaintenanceSchedule) : ScanResult :=
  (get_applicable_aircraft sched).foldl
    (fun acc a =>
      let tr := check_trigger_conditions today acc.state.items acc.schedule a
      if tr.1 then
        let g := generate_maintenance_requirement today acc.state acc.schedule tr.2
        { results := acc.results ++
            [{ aircraft := a.aid, triggered := true, reason := tr.2,
               requirement_generated := g.requirement.isSome }]
          schedule := g.schedule
          state := g.state }
      else
        { results := acc.results ++
            [{ aircraft := a.aid, triggered := false, reason := tr.2,
               requirement_generated := false }]
          schedule := acc.schedule
          state := acc.state })
    { results := [], schedule := sched, state := st }

/-! ## Aggregation lemmas -/

lemma worstCase_green_left (a : ComplianceStatus) : worstCase green a = a := by
  cases a <;> rfl

lemma worstCase_green_right (a : ComplianceStatus) : worstCase a green = a := by
  cases a <;> rfl

lemma worstCase_assoc (a b c : ComplianceStatus) :
    worstCase (worstCase a b) c = worstCase a (worstCase b c) := by
  cases a <;> cases b <;> cases c <;> rfl

lemma stepOverall_eq_worstCase (a b : ComplianceStatus) :
    stepOverall a b = worstCase a b := by
  cases a <;> cases b <;> rfl

/-- Folding worst-case from the left out of any seed equals combining the
seed with the right fold. -/
lemma foldl_worstCase_eq (a : ComplianceStatus) (l : List ComplianceStatus) :
    l.foldl worstCase a = worstCase a (l.foldr worstCase green) := by
  induction l generalizing a with
  | nil => simp [worstCase_green_right]
  | cons b t ih => simp [ih, worstCase_assoc]

/-- The worst-case right fold is green when nothing is red or yellow, red as
soon as something is red, and yellow otherwise. -/
lemma foldr_worstCase_char (l : List ComplianceStatus) :
    l.foldr worstCase green =
      if l.any (fun x => x == red) then red
      else if l.any (fun x => x == yellow) then yellow
      else green := by
  induction l with
  | nil => rfl
  | cons a t ih =>
    cases a <;>
      simp only [List.foldr_cons, List.any_cons, ih] <;>
      split_ifs <;>
      simp_all [worstCase]

lemma coc_foldl_results (now today : Int) (obj : DomainObject)
    (rules : List ComplianceRule) (res : ObjCheckResults) (st : EngineState) :
    (rules.foldl (cocStep now today obj) (res, st)).1.rule_results =
      res.rule_results ++ rules.map (fun r =>
        (r.rule_code, (evaluate_against_object today r obj).status,
          (evaluate_against_object today r obj).message)) := by
  induction rules generalizing res st with
  | nil => simp
  | cons r t ih => simp [cocStep, ih]

lemma coc_foldl_overall (now today : Int) (obj : DomainObject)
    (rules : List ComplianceRule) (res : ObjCheckResults) (st : EngineState) :
    (rules.foldl (cocStep now today obj) (res, st)).1.overall_status =
      (rules.map fun r => (evaluate_against_object today r obj).status).foldl
        stepOverall res.overall_status := by
  induction rules generalizing res st with
  | nil => simp
  | cons r t ih => simp [cocStep, ih]

/-! ## Concrete fixtures for witnesses -/

/-- A red-severity date_past rule on the registration expiry field. -/
def witRule : ComplianceRule :=
  { rule_code := "REG_EXPIRY", rule_name := "Registration not expired",
    severity := red, is_active := true, check_frequency_hours := 24,
    evaluation_type := EvaluationType.date_past,
    field_path := "registrationExpiry", threshold_value := FieldValue.noneV,
    threshold_days := 0, threshold_numeric := 0 }

/-- A green-severity always-on rule used as a passing companion. -/
def witRulePass : ComplianceRule :=
  { witRule with
    rule_code := "ACTIVE_FLAG"
    rule_name := "Active flag set"
    evaluation_type := EvaluationType.boolean_true
    field_path := "is_active" }

/-- An aircraft object whose registration expired yesterday (today = 1). -/
def witObj : DomainObject :=
  { objType := "aircraft", objId := 1,
    fields := [("registrationExpiry", FieldValue.dateV 0),
               ("is_active", FieldValue.boolV true)],
    customChecks := [] }

/-- An engine state holding one red and one green check for witObj. -/
def witState : EngineState :=
  { rules := [witRule, witRulePass], objects := [witObj],
    checks :=
      [{ content_type := "aircraft", object_id := 1, rule := witRule,
         status := red, last_checked := 0, next_check_due := some 24 },
       { content_type := "aircraft", object_id := 1, rule := witRulePass,
         status := green, last_checked := 0, next_check_due := some 24 }] }

/-! ## Claim theorems C1, C2, C10 -/

/-- C1: for every rule of evaluation type date_past and every object whose
resolved field value is a date strictly before today, the evaluation returns
a failing verdict whose status equals the rule severity and whose message
indicates the expiry, and the engine wrapper passes status and message
through. -/
theorem C1_date_past_expired_fails (today d : Int) (rule : ComplianceRule)
    (obj : DomainObject)
    (htype : rule.evaluation_type = EvaluationType.date_past)
    (hres : resolve_field obj rule.field_path = some (FieldValue.dateV d))
    (hlt : d < today) :
    (evaluate_against_object today rule obj).status = rule.severity ∧
    (evaluate_against_object today rule obj).passed = false ∧
    (evaluate_against_object today rule obj).message =
      rule.field_path ++ " expired before today" ∧
    engine_evaluate_rule today obj rule =
      (rule.severity, rule.field_path ++ " expired before today") := by
  simp [evaluate_against_object, engine_evaluate_rule, htype, hres, hlt,
    failResult]

/-- Witness for C1 at a concrete input: a red date_past rule on
registrationExpiry against an object whose registration expired yesterday. -/
theorem C1_date_past_expired_fails_witness :
    (witRule.evaluation_type = EvaluationType.date_past ∧
      resolve_field witObj witRule.field_path = some (FieldValue.dateV 0) ∧
      (0 : Int) < 1) ∧
    (evaluate_against_object 1 witRule witObj).status = witRule.severity ∧
    (evaluate_against_object 1 witRule witObj).passed = false ∧
    (evaluate_against_object 1 witRule witObj).message =
      witRule.field_path ++ " expired before today" ∧
    engine_evaluate_rule 1 witObj witRule =
      (witRule.severity, witRule.field_path ++ " expired before today") :=
  ⟨⟨rfl, rfl, by decide⟩,
    C1_date_past_expired_fails 1 0 witRule witObj rfl rfl (by decide)⟩

/-- C2: the per-object aggregate compliance status is the worst case of the
statuses of the active-rule checks of the object; no checks at all means
green; a red check forces red regardless of everything else; and the overall
status computed by check_object_compliance is likewise the worst case of its
per-rule results. -/
theorem C2_aggregate_worst_case (s : EngineState) (obj : DomainObject)
    (now today : Int) (rulesOpt : Option (List ComplianceRule)) :
    compliance_status s obj =
      ((relevant_checks s obj).map ComplianceCheck.status).foldr worstCase green
    ∧ (relevant_checks s obj = [] → compliance_status s obj = green)
    ∧ (∀ c ∈ relevant_checks s obj, c.status = red →
        compliance_status s obj = red)
    ∧ (check_object_compliance now today obj rulesOpt s).1.overall_status =
        ((check_object_compliance now today obj rulesOpt s).1.rule_results.map
          (fun r => r.2.1)).foldr worstCase green := by
  refine ⟨?_, ?_, ?_, ?_⟩
  · rw [foldr_worstCase_char]
    unfold compliance_status
    rcases h : relevant_checks s obj with _ | ⟨c, t⟩
    · simp
    · simp [List.any_map, Function.comp_def]
  · intro h
    unfold compliance_status
    simp [h]
  · intro c hc hred
    unfold compliance_status
    have hne : (relevant_checks s obj).isEmpty = false := by
      cases h : relevant_checks s obj with
      | nil => rw [h] at hc; cases hc
      | cons a t => simp
    have hany : (relevant_checks s obj).any (fun x => x.status == red) = true :=
      List.any_eq_true.mpr ⟨c, hc, by simp [hred]⟩
    simp [hne, hany]
  · unfold check_object_compliance
    rw [coc_foldl_results, coc_foldl_overall]
    simp only [List.nil_append, List.map_map, Function.comp_def]
    have hfun : stepOverall = worstCase := by
      funext a b
      exact stepOverall_eq_worstCase a b
    rw [hfun, foldl_worstCase_eq, worstCase_green_left]

/-- Witness for C2 at a concrete state: one red check and one green check on
the same object aggregate to red. -/
theorem C2_aggregate_worst_case_witness :
    compliance_status witState witObj = red ∧
    (∀ c ∈ relevant_checks witState witObj, c.status = red →
      compliance_status witState witObj = red) := by
  have h := C2_aggregate_worst_case witState witObj 0 0 none
  refine ⟨?_, h.2.2.1⟩
  rw [h.1]
  decide

/-- C10: get_applicable_rules returns all active rules for every model class
(the class argument is ignored), and check_object_compliance without an
explicit rule list therefore evaluates exactly the active rules of the
system, in table order, with no filtering by target object type. -/
theorem C10_applicable_rules_ignore_model_class (mc₁ mc₂ : String)
    (s : EngineState) (now today : Int) (obj : DomainObject) :
    get_applicable_rules mc₁ s = get_applicable_rules mc₂ s ∧
    get_applicable_rules mc₁ s = s.rules.filter (fun r => r.is_active) ∧
    (check_object_compliance now today obj none s).1.rule_results.map
        (fun r => r.1) =
      (s.rules.filter (fun r => r.is_active)).map (fun r => r.rule_code) := by
  refine ⟨rfl, rfl, ?_⟩
  unfold check_object_compliance
  rw [coc_foldl_results]
  simp [get_applicable_rules]

/-! ## Claim theorems C4, C5, C6 (risk scorer) -/

/-- A risk category with both modifiers 1.0, as in the spec example. -/
def witCat : RiskCategory :=
  { code := "AO", default_likelihood_modifier := 1,
    default_consequence_modifier := 1 }

/-- The spec example entry: inherent (5,5), residual (3,3). -/
def witRisk : RiskRegister :=
  { category := witCat, inherent_likelihood := 5, inherent_consequence := 5,
    residual_likelihood := 3, residual_consequence := 3,
    inherent_risk_rating := "", residual_risk_rating := "",
    assessment_date := 0, review_date := some 100 }

/-- An invalid entry: residual (5,5) above inherent (3,3). -/
def witBadRisk : RiskRegister :=
  { witRisk with
    inherent_likelihood := 3
    inherent_consequence := 3
    residual_likelihood := 5
    residual_consequence := 5 }

/-- C4: with positive category modifiers, an entry whose modifier-adjusted
residual score exceeds its modifier-adjusted inherent score is rejected by
save with a validation error (not silently corrected), and every entry that
save accepts satisfies residual score less than or equal to inherent score,
both raw and modifier-adjusted. -/
theorem C4_residual_above_inherent_rejected (e : RiskRegister)
    (hl : 0 < e.category.default_likelihood_modifier)
    (hc : 0 < e.category.default_consequence_modifier) :
    (((e.inherent_likelihood : Rat) * e.category.default_likelihood_modifier) *
        ((e.inherent_consequence : Rat) * e.category.default_consequence_modifier) <
      ((e.residual_likelihood : Rat) * e.category.default_likelihood_modifier) *
        ((e.residual_consequence : Rat) * e.category.default_consequence_modifier) →
      riskSave e =
        Except.error "Residual risk cannot be higher than inherent risk.") ∧
    (∀ e', riskSave e = Except.ok e' →
      e'.residual_likelihood * e'.residual_consequence ≤
        e'.inherent_likelihood * e'.inherent_consequence ∧
      ((e'.residual_likelihood : Rat) * e'.category.default_likelihood_modifier) *
          ((e'.residual_consequence : Rat) * e'.category.default_consequence_modifier) ≤
        ((e'.inherent_likelihood : Rat) * e'.category.default_likelihood_modifier) *
          ((e'.inherent_consequence : Rat) * e'.category.default_consequence_modifier)) := by
  have hm : (0 : Rat) <
      e.category.default_likelihood_modifier * e.category.default_consequence_modifier :=
    mul_pos hl hc
  constructor
  · intro hq
    have h1 : ((e.inherent_likelihood * e.inherent_consequence : Nat) : Rat) *
          (e.category.default_likelihood_modifier * e.category.default_consequence_modifier) <
        ((e.residual_likelihood * e.residual_consequence : Nat) : Rat) *
          (e.category.default_likelihood_modifier * e.category.default_consequence_modifier) := by
      push_cast
      nlinarith [hq]
    have h2 : ((e.inherent_likelihood * e.inherent_consequence : Nat) : Rat) <
        ((e.residual_likelihood * e.residual_consequence : Nat) : Rat) :=
      lt_of_mul_lt_mul_right h1 (le_of_lt hm)
    have h3 : e.inherent_likelihood * e.inherent_consequence <
        e.residual_likelihood * e.residual_consequence := by exact_mod_cast h2
    unfold riskSave riskClean update_risk_ratings
    simp [h3]
  · intro e' hok
    unfold riskSave riskClean update_risk_ratings at hok
    by_cases h3 : e.inherent_likelihood * e.inherent_consequence <
        e.residual_likelihood * e.residual_consequence
    · simp [h3] at hok
    · simp only [h3, if_false, ite_false, Except.ok.injEq] at hok
      have hle : e.residual_likelihood * e.residual_consequence ≤
          e.inherent_likelihood * e.inherent_consequence := Nat.le_of_not_lt h3
      subst hok
      refine ⟨hle, ?_⟩
      have hleq : ((e.residual_likelihood * e.residual_consequence : Nat) : Rat) ≤
          ((e.inherent_likelihood * e.inherent_consequence : Nat) : Rat) := by
        exact_mod_cast hle
      have := mul_le_mul_of_nonneg_right hleq (le_of_lt hm)
      push_cast at this
      nlinarith [this]

/-- Witness for C4: saving the entry with inherent (3,3), residual (5,5) and
unit modifiers is rejected with the validation error. -/
theorem C4_residual_above_inherent_rejected_witness :
    ((0 : Rat) < witBadRisk.category.default_likelihood_modifier ∧
      (0 : Rat) < witBadRisk.category.default_consequence_modifier) ∧
    riskSave witBadRisk =
      Except.error "Residual risk cannot be higher than inherent risk." :=
  ⟨⟨by norm_num [witBadRisk, witRisk, witCat], by norm_num [witBadRisk, witRisk, witCat]⟩,
    (C4_residual_above_inherent_rejected witBadRisk
      (by norm_num [witBadRisk, witRisk, witCat])
      (by norm_num [witBadRisk, witRisk, witCat])).1
      (by norm_num [witBadRisk, witRisk, witCat])⟩

/-- C5: calculate_risk_rating scores likelihood times consequence after the
category modifiers and bands the result (at least 20 extreme, at least 15
high, at least 8 medium, at least 3 low, else negligible); the spec example
rates (5,5) extreme with score 25 and (3,3) medium with score 9, and
update_risk_ratings writes those bands into the entry. -/
theorem C5_risk_rating_bands (cat : RiskCategory) (l c : Nat) :
    ((20 ≤ ((l : Rat) * cat.default_likelihood_modifier) *
        ((c : Rat) * cat.default_consequence_modifier) →
      calculate_risk_rating cat l c = "extreme") ∧
     (15 ≤ ((l : Rat) * cat.default_likelihood_modifier) *
        ((c : Rat) * cat.default_consequence_modifier) ∧
      ((l : Rat) * cat.default_likelihood_modifier) *
        ((c : Rat) * cat.default_consequence_modifier) < 20 →
      calculate_risk_rating cat l c = "high") ∧
     (8 ≤ ((l : Rat) * cat.default_likelihood_modifier) *
        ((c : Rat) * cat.default_consequence_modifier) ∧
      ((l : Rat) * cat.default_likelihood_modifier) *
        ((c : Rat) * cat.default_consequence_modifier) < 15 →
      calculate_risk_rating cat l c = "medium") ∧
     (3 ≤ ((l : Rat) * cat.default_likelihood_modifier) *
        ((c : Rat) * cat.default_consequence_modifier) ∧
      ((l : Rat) * cat.default_likelihood_modifier) *
        ((c : Rat) * cat.default_consequence_modifier) < 8 →
      calculate_risk_rating cat l c = "low") ∧
     (((l : Rat) * cat.default_likelihood_modifier) *
        ((c : Rat) * cat.default_consequence_modifier) < 3 →
      calculate_risk_rating cat l c = "negligible")) ∧
    ((5 : Rat) * witCat.default_likelihood_modifier) *
        ((5 : Rat) * witCat.default_consequence_modifier) = 25 ∧
    ((3 : Rat) * witCat.default_likelihood_modifier) *
        ((3 : Rat) * witCat.default_consequence_modifier) = 9 ∧
    calculate_risk_rating witCat 5 5 = "extreme" ∧
    calculate_risk_rating witCat 3 3 = "medium" ∧
    (update_risk_ratings witRisk).inherent_risk_rating = "extreme" ∧
    (update_risk_ratings witRisk).residual_risk_rating = "medium" := by
  refine ⟨⟨?_, ?_, ?_, ?_, ?_⟩, ?_, ?_, ?_, ?_, ?_, ?_⟩
  · intro h
    simp only [calculate_risk_rating]
    split_ifs with h1 h2 h3 h4 <;> first | rfl | linarith
  · rintro ⟨ha, hb⟩
    simp only [calculate_risk_rating]
    split_ifs with h1 h2 h3 h4 <;> first | rfl | linarith
  · rintro ⟨ha, hb⟩
    simp only [calculate_risk_rating]
    split_ifs with h1 h2 h3 h4 <;> first | rfl | linarith
  · rintro ⟨ha, hb⟩
    simp only [calculate_risk_rating]
    split_ifs with h1 h2 h3 h4 <;> first | rfl | linarith
  · intro h
    simp only [calculate_risk_rating]
    split_ifs with h1 h2 h3 h4 <;> first | rfl | linarith
  · norm_num [witCat]
  · norm_num [witCat]
  · norm_num [calculate_risk_rating, witCat]
  · norm_num [calculate_risk_rating, witCat]
  · norm_num [update_risk_ratings, calculate_risk_rating, witRisk, witCat]
  · norm_num [update_risk_ratings, calculate_risk_rating, witRisk, witCat]

/-- Witness for C5: at unit modifiers the (5,5) score 25 reaches the extreme
band. -/
theorem C5_risk_rating_bands_witness :
    (20 ≤ ((5 : Nat) : Rat) * witCat.default_likelihood_modifier *
        (((5 : Nat) : Rat) * witCat.default_consequence_modifier)) ∧
    calculate_risk_rating witCat 5 5 = "extreme" :=
  ⟨by norm_num [witCat],
    (C5_risk_rating_bands witCat 5 5).1.1 (by norm_num [witCat])⟩

/-- C6: control effectiveness is the clamped percentage reduction of the raw
(pre-modifier) inherent score to the raw residual score, is 0 when the raw
inherent score is 0, and evaluates to 64 on the spec example (inherent
(5,5), residual (3,3)). -/
theorem C6_control_effectiveness_formula (e : RiskRegister) :
    ((e.inherent_likelihood : Rat) * (e.inherent_consequence : Rat) ≠ 0 →
      control_effectiveness e =
        pyMax 0 (pyMin 100
          ((((e.inherent_likelihood : Rat) * (e.inherent_consequence : Rat)) -
              ((e.residual_likelihood : Rat) * (e.residual_consequence : Rat))) /
            ((e.inherent_likelihood : Rat) * (e.inherent_consequence : Rat)) * 100))) ∧
    ((e.inherent_likelihood : Rat) * (e.inherent_consequence : Rat) = 0 →
      control_effectiveness e = 0) ∧
    control_effectiveness witRisk = 64 := by
  refine ⟨?_, ?_, ?_⟩
  · intro h
    unfold control_effectiveness
    simp [h]
  · intro h
    unfold control_effectiveness
    simp [h]
  · norm_num [control_effectiveness, pyMax, pyMin, witRisk, witCat]

/-- Witness for C6: the nonzero-inherent branch at the spec example. -/
theorem C6_control_effectiveness_formula_witness :
    ((witRisk.inherent_likelihood : Rat) * (witRisk.inherent_consequence : Rat) ≠ 0) ∧
    control_effectiveness witRisk = 64 :=
  ⟨by norm_num [witRisk, witCat],
    (C6_control_effectiveness_formula witRisk).2.2⟩

/-! ## Maintenance lemmas and claim theorems C7, C8, C3 -/

/-- Folding the latest-pick from a some seed always yields an element at or
above every candidate completion date. -/
lemma foldl_pickLater_some (l : List F2MaintenanceRequired)
    (b : F2MaintenanceRequired) :
    ∃ m, l.foldl pickLater (some b) = some m ∧ m ∈ b :: l ∧
      b.completed_date.getD 0 ≤ m.completed_date.getD 0 ∧
      ∀ x ∈ l, x.completed_date.getD 0 ≤ m.completed_date.getD 0 := by
  induction l generalizing b with
  | nil => exact ⟨b, rfl, by simp, le_refl _, by simp⟩
  | cons a t ih =>
    simp only [List.foldl_cons, pickLater]
    by_cases h : b.completed_date.getD 0 < a.completed_date.getD 0
    · rw [if_pos h]
      obtain ⟨m, hm, hmem, hba, hall⟩ := ih a
      refine ⟨m, hm, ?_, le_trans (le_of_lt h) hba, ?_⟩
      · rcases List.mem_cons.mp hmem with h1 | h1
        · simp [h1]
        · simp [h1]
      · intro x hx
        rcases List.mem_cons.mp hx with h2 | h2
        · subst h2
          exact hba
        · exact hall x h2
  -- the else branch keeps the seed
    · rw [if_neg h]
      obtain ⟨m, hm, hmem, hba, hall⟩ := ih b
      refine ⟨m, hm, ?_, hba, ?_⟩
      · rcases List.mem_cons.mp hmem with h1 | h1
        · simp [h1]
        · simp [h1]
      · intro x hx
        rcases List.mem_cons.mp hx with h2 | h2
        · subst h2
          exact le_trans (le_of_not_lt h) hba
        · exact hall x h2

/-- The last-completed query is empty exactly when no completed matching
item exists. -/
lemma lastCompleted_none_iff (items : List F2MaintenanceRequired)
    (sched : F2MaintenanceSchedule) (a : Aircraft) :
    lastCompletedMaintenance items sched a = none ↔
      completedMatching items sched a = [] := by
  unfold lastCompletedMaintenance
  cases h : completedMatching items sched a with
  | nil => simp
  | cons b t =>
    simp only [List.foldl_cons]
    obtain ⟨m, hm, _, _, _⟩ := foldl_pickLater_some t b
    simp [show pickLater none b = some b from rfl, hm]

/-- The last-completed query returns a completed matching item whose
completion date is maximal among the completed matching items. -/
lemma lastCompleted_spec (items : List F2MaintenanceRequired)
    (sched : F2MaintenanceSchedule) (a : Aircraft) (m : F2MaintenanceRequired)
    (hm : lastCompletedMaintenance items sched a = some m) :
    m ∈ completedMatching items sched a ∧
      ∀ x ∈ completedMatching items sched a,
        x.completed_date.getD 0 ≤ m.completed_date.getD 0 := by
  unfold lastCompletedMaintenance at hm
  cases h : completedMatching items sched a with
  | nil => rw [h] at hm; cases hm
  | cons b t =>
    rw [h] at hm
    simp only [List.foldl_cons, show pickLater none b = some b from rfl] at hm
    obtain ⟨m', hm', hmem, hba, hall⟩ := foldl_pickLater_some t b
    rw [hm'] at hm
    cases hm
    refine ⟨hmem, ?_⟩
    intro x hx
    rcases List.mem_cons.mp hx with h1 | h1
    · subst h1
      exact hba
    · exact hall x h1

/-- C7: for an active calendar schedule with a set interval, the trigger
check looks up the latest completed matching work item for the aircraft; if
none exists it triggers with the no-previous-maintenance reason, and
otherwise it triggers exactly when the days since the last completion date
reach the interval minus the advance notice. -/
theorem C7_calendar_trigger (today : Int) (items : List F2MaintenanceRequired)
    (sched : F2MaintenanceSchedule) (a : Aircraft) (n : Nat)
    (hact : sched.is_active = true)
    (htype : sched.schedule_type = ScheduleType.calendar)
    (hint : sched.calendar_interval_days = some n)
    (hn : n ≠ 0) :
    (lastCompletedMaintenance items sched a = none ↔
      completedMatching items sched a = []) ∧
    (lastCompletedMaintenance items sched a = none →
      check_trigger_conditions today items sched a =
        (true, "Calendar trigger: No previous maintenance recorded")) ∧
    (∀ m d, lastCompletedMaintenance items sched a = some m →
      m.completed_date = some d →
      (m ∈ completedMatching items sched a ∧
        ∀ x ∈ completedMatching items sched a,
          x.completed_date.getD 0 ≤ d) ∧
      ((check_trigger_conditions today items sched a).1 = true ↔
        (n : Int) - (sched.advance_notice_days : Int) ≤ today - d)) := by
  refine ⟨lastCompleted_none_iff items sched a, ?_, ?_⟩
  · intro hnone
    simp [check_trigger_conditions, hact, htype, hint, truthyNat, hn, hnone]
  · intro m d hm hd
    obtain ⟨hmem, hmax⟩ := lastCompleted_spec items sched a m hm
    refine ⟨⟨hmem, ?_⟩, ?_⟩
    · intro x hx
      have := hmax x hx
      rwa [hd] at this
    · simp only [check_trigger_conditions, hact, htype, hint, truthyNat, hn,
        hm, hd]
      by_cases hc : (n : Int) - (sched.advance_notice_days : Int) ≤ today - d
      · simp [hc, hn]
      · simp [hc, hn]

/-- A concrete calendar schedule: service every 90 days with 7 days advance
notice, on an active aircraft. -/
def witAircraft : Aircraft := { aid := 1, is_active := true, current_flight_hours := 0 }

/-- Calendar trigger rule fixture. -/
def witSchedCal : F2MaintenanceSchedule :=
  { aircraft := witAircraft, maintenance_item := "svc",
    schedule_type := ScheduleType.calendar, calendar_interval_days := some 90,
    flight_hours_interval := none, auto_generate_required := true,
    advance_notice_days := 7, is_active := true, manufacturer_schedule := false,
    operational_override := false, total_generated_items := 0,
    last_generated_date := none }

/-- A completed matching work item, completed on day 10. -/
def witDoneItem : F2MaintenanceRequired :=
  { f2_aircraft := 1, f2_entry_date := 0, item := "svc done", due := 0,
    completed_date := some 10, is_completed := true }

/-- Witness for C7: on day 95, 85 days after the day-10 completion, the
90-day schedule with 7-day notice (threshold 83) triggers. -/
theorem C7_calendar_trigger_witness :
    (witSchedCal.is_active = true ∧
      witSchedCal.schedule_type = ScheduleType.calendar ∧
      witSchedCal.calendar_interval_days = some 90 ∧ (90 : Nat) ≠ 0 ∧
      lastCompletedMaintenance [witDoneItem] witSchedCal witAircraft =
        some witDoneItem ∧
      witDoneItem.completed_date = some 10) ∧
    (check_trigger_conditions 95 [witDoneItem] witSchedCal witAircraft).1 = true :=
  ⟨⟨rfl, rfl, rfl, by decide, by decide, rfl⟩,
    ((C7_calendar_trigger 95 [witDoneItem] witSchedCal witAircraft 90
        rfl rfl rfl (by decide)).2.2 witDoneItem 10 (by decide) rfl).2.mpr
      (by decide)⟩

/-- The header get-or-create never changes the stored items. -/
lemma ensureHeader_items (st : MaintState) (aid : Nat) (today : Int) :
    (ensureHeader st aid today).items = st.items := by
  unfold ensureHeader
  split <;> rfl

/-- C8 counterexample: a triggered usage-interval (flight_hours) schedule
with 7 days advance notice generates an item due today plus 7, not due
today as the claim states for usage schedules. -/
def witSchedFH : F2MaintenanceSchedule :=
  { witSchedCal with
    schedule_type := ScheduleType.flight_hours
    calendar_interval_days := none
    flight_hours_interval := some 25 }

/-- The empty maintenance store. -/
def emptyMaint : MaintState := { headers := [], items := [] }

/-- C8 counterexample: for the flight-hours schedule with advance notice 7,
the trigger condition holds at hours 25 (threshold 20), yet the generated
requirement is due on day 7, not on day 0 (today) as claimed for
usage-interval schedules. -/
theorem C8_usage_due_date_counterexample :
    witSchedFH.schedule_type = ScheduleType.flight_hours ∧
    witSchedFH.advance_notice_days = 7 ∧
    (check_trigger_conditions 0 emptyMaint.items witSchedFH
      { witAircraft with current_flight_hours := 25 }).1 = true ∧
    (generate_maintenance_requirement 0 emptyMaint witSchedFH "").requirement.map
      F2MaintenanceRequired.due = some 7 ∧
    some (7 : Int) ≠ some (0 : Int) := by
  refine ⟨rfl, rfl, ?_, by decide, by decide⟩
  norm_num [check_trigger_conditions, witSchedFH, witSchedCal, witAircraft,
    emptyMaint, lastCompletedMaintenance, completedMatching, truthyRat,
    truthyNat]

/-- C8 (amended): for every schedule with auto-generation enabled, Generate
creates exactly one uncompleted work item, due today plus advance_notice_days
both for calendar schedules with a set interval and for usage-interval
(flight_hours) schedules, increments the total-generated counter by one and
sets the last-generated timestamp. -/
theorem C8_generate_amended (today : Int) (st : MaintState)
    (sched : F2MaintenanceSchedule) (reason : String)
    (hauto : sched.auto_generate_required = true) :
    ∃ itm,
      (generate_maintenance_requirement today st sched reason).requirement =
        some itm ∧
      (generate_maintenance_requirement today st sched reason).state.items =
        st.items ++ [itm] ∧
      itm.is_completed = false ∧ itm.completed_date = none ∧
      (((sched.schedule_type = ScheduleType.calendar ∧
          truthyNat sched.calendar_interval_days = true) ∨
        sched.schedule_type = ScheduleType.flight_hours) →
        itm.due = today + (sched.advance_notice_days : Int)) ∧
      (generate_maintenance_requirement today st sched reason).schedule.total_generated_items =
        sched.total_generated_items + 1 ∧
      (generate_maintenance_requirement today st sched reason).schedule.last_generated_date =
        some today := by
  have hguard : (sched.auto_generate_required = false) = False := by
    simp [hauto]
  refine ⟨generateRow today sched reason, ?_, ?_, rfl, rfl, ?_, ?_, ?_⟩
  · simp only [generate_maintenance_requirement, hguard, if_false]
  · simp only [generate_maintenance_requirement, hguard, if_false]
    rw [ensureHeader_items]
  · intro h
    unfold generateRow generateDueDate
    rcases h with ⟨hcal, hint⟩ | hfh
    · simp [hcal, hint]
    · have hne : sched.schedule_type = ScheduleType.calendar → False := by
        intro hc
        rw [hfh] at hc
        cases hc
      simp [hfh, hne]
  · simp only [generate_maintenance_requirement, hguard, if_false]
  · simp only [generate_maintenance_requirement, hguard, if_false]

/-- Witness for C8 (amended): the flight-hours fixture generates one item due
day 7 with counter 1. -/
theorem C8_generate_amended_witness :
    witSchedFH.auto_generate_required = true ∧
    (generate_maintenance_requirement 0 emptyMaint witSchedFH "").requirement.isSome = true ∧
    (generate_maintenance_requirement 0 emptyMaint witSchedFH "").schedule.total_generated_items = 1 := by
  obtain ⟨itm, h1, h2, h3, h4, h5, h6, h7⟩ :=
    C8_generate_amended 0 emptyMaint witSchedFH "" (by decide)
  refine ⟨by decide, ?_, ?_⟩
  · rw [h1]
    rfl
  · rw [h6]
    decide

/-- First scan of the calendar fixture on an empty store: generates the first
work item. -/
def witScan1 : ScanResult := scan_all_applicable_aircraft 0 emptyMaint witSchedCal

/-- Second scan, immediately after, on the state the first scan produced. -/
def witScan2 : ScanResult :=
  scan_all_applicable_aircraft 0 witScan1.state witScan1.schedule

/-- C3 counterexample: after the first ScanAll exactly one uncompleted
generated item from this rule exists for the asset, and the second ScanAll,
far from being skipped, creates a duplicate - two uncompleted matching items
exist afterwards. -/
theorem C3_second_scan_duplicates :
    (witScan1.state.items.filter (fun m =>
      m.f2_aircraft == witSchedCal.aircraft.aid &&
        icontains m.item (pyTake20 witSchedCal.maintenance_item) &&
        !m.is_completed)).length = 1 ∧
    (witScan2.state.items.filter (fun m =>
      m.f2_aircraft == witSchedCal.aircraft.aid &&
        icontains m.item (pyTake20 witSchedCal.maintenance_item) &&
        !m.is_completed)).length = 2 := by
  decide

/-- C3 (amended): generation is not guarded by existing uncompleted items:
whenever the trigger condition holds for the (still active) assigned
aircraft and auto-generation is on, a ScanAll appends one more work item,
even when an uncompleted item from this rule already exists for the asset
(the trigger check consults only completed items). -/
theorem C3_scan_not_idempotent (today : Int) (st : MaintState)
    (sched : F2MaintenanceSchedule)
    (hair : sched.aircraft.is_active = true)
    (hauto : sched.auto_generate_required = true)
    (htrig : (check_trigger_conditions today st.items sched sched.aircraft).1 = true)
    (hdup : ∃ m ∈ st.items, m.f2_aircraft = sched.aircraft.aid ∧
      icontains m.item (pyTake20 sched.maintenance_item) = true ∧
      m.is_completed = false) :
    (scan_all_applicable_aircraft today st sched).state.items.length =
      st.items.length + 1 := by
  clear hdup
  unfold scan_all_applicable_aircraft get_applicable_aircraft
  rw [hair]
  simp only [if_true, List.foldl_cons, List.foldl_nil, htrig, if_pos]
  simp only [generate_maintenance_requirement, hauto]
  simp [ensureHeader_items]

/-- Witness for C3 (amended): applied to the state after the first scan,
which holds one uncompleted generated item; the second scan makes it two. -/
theorem C3_scan_not_idempotent_witness :
    (witScan1.schedule.aircraft.is_active = true ∧
      witScan1.schedule.auto_generate_required = true ∧
      (check_trigger_conditions 0 witScan1.state.items witScan1.schedule
        witScan1.schedule.aircraft).1 = true ∧
      ∃ m ∈ witScan1.state.items, m.f2_aircraft = witScan1.schedule.aircraft.aid ∧
        icontains m.item (pyTake20 witScan1.schedule.maintenance_item) = true ∧
        m.is_completed = false) ∧
    (scan_all_applicable_aircraft 0 witScan1.state witScan1.schedule).state.items.length =
      witScan1.state.items.length + 1 :=
  ⟨⟨by decide, by decide, by decide, by decide⟩,
    C3_scan_not_idempotent 0 witScan1.state witScan1.schedule
      (by decide) (by decide) (by decide) (by decide)⟩

/-! ## Scheduling lemmas for C9 -/

/-- A stamped check with a nonzero rule frequency is never overdue at the
stamping instant: its next due moment lies in the future. -/
lemma stamp_not_overdue (now today : Int) (obj : DomainObject)
    (rule : ComplianceRule) (c : ComplianceCheck)
    (hf : rule.check_frequency_hours ≠ 0) :
    is_overdue_for now (stampCheck now today obj rule c) = false := by
  have h : ¬ (now + (rule.check_frequency_hours : Int) < now) := by omega
  simp [is_overdue_for, stampCheck, hf, h]

lemma stamp_key (now today : Int) (obj : DomainObject) (rule : ComplianceRule)
    (c : ComplianceCheck) :
    checkKey (stampCheck now today obj rule c) =
      (c.content_type, c.object_id, rule.rule_code) := rfl

/-- The boolean key test of the upsert agrees with key equality. -/
lemma upsert_cond_iff (c : ComplianceCheck) (obj : DomainObject)
    (rule : ComplianceRule) :
    (c.content_type == obj.objType && c.object_id == obj.objId &&
      c.rule.rule_code == rule.rule_code) = true ↔
      checkKey c = (obj.objType, obj.objId, rule.rule_code) := by
  simp [checkKey, Prod.ext_iff]
  tauto

/-- The keys after an upsert: unchanged when the key was present, the key
appended otherwise. -/
lemma upsert_keys (now today : Int) (obj : DomainObject)
    (rule : ComplianceRule) (l : List ComplianceCheck) :
    (upsertCheck now today obj rule l).map checkKey =
      if (obj.objType, obj.objId, rule.rule_code) ∈ l.map checkKey
      then l.map checkKey
      else l.map checkKey ++ [(obj.objType, obj.objId, rule.rule_code)] := by
  induction l with
  | nil => simp [upsertCheck, stamp_key, newCheck]
  | cons c rest ih =>
    unfold upsertCheck
    by_cases h : (c.content_type == obj.objType && c.object_id == obj.objId &&
        c.rule.rule_code == rule.rule_code) = true
    · rw [if_pos h]
      have hk : checkKey c = (obj.objType, obj.objId, rule.rule_code) :=
        (upsert_cond_iff c obj rule).mp h
      have hk' := hk
      simp only [checkKey, Prod.mk.injEq] at hk'
      simp [stamp_key, hk, hk'.1, hk'.2.1]
    · rw [if_neg h]
      have hk : checkKey c ≠ (obj.objType, obj.objId, rule.rule_code) := by
        intro he
        exact h ((upsert_cond_iff c obj rule).mpr he)
      simp only [List.map_cons, ih, List.mem_cons]
      by_cases hmem : (obj.objType, obj.objId, rule.rule_code) ∈
          rest.map checkKey
      · simp [hmem, Ne.symm hk]
      · simp [hmem, Ne.symm hk]

/-- Upserting preserves distinctness of the check keys. -/
lemma upsert_nodup (now today : Int) (obj : DomainObject)
    (rule : ComplianceRule) (l : List ComplianceCheck)
    (hn : (l.map checkKey).Nodup) :
    ((upsertCheck now today obj rule l).map checkKey).Nodup := by
  rw [upsert_keys]
  by_cases h : (obj.objType, obj.objId, rule.rule_code) ∈ l.map checkKey
  · simpa [h] using hn
  · simp [h, List.nodup_append, hn]

/-- Membership after an upsert with distinct keys: a surviving check is an
original one off the upserted key, or the freshly stamped row. -/
lemma upsert_mem (now today : Int) (obj : DomainObject)
    (rule : ComplianceRule) (l : List ComplianceCheck)
    (hn : (l.map checkKey).Nodup) (c' : ComplianceCheck)
    (hc : c' ∈ upsertCheck now today obj rule l) :
    (c' ∈ l ∧ checkKey c' ≠ (obj.objType, obj.objId, rule.rule_code)) ∨
      ∃ c, c' = stampCheck now today obj rule c := by
  induction l with
  | nil =>
    simp only [upsertCheck, List.mem_singleton] at hc
    exact Or.inr ⟨_, hc⟩
  | cons c rest ih =>
    unfold upsertCheck at hc
    rcases List.nodup_cons.mp hn with ⟨hkc, hnr⟩
    by_cases h : (c.content_type == obj.objType && c.object_id == obj.objId &&
        c.rule.rule_code == rule.rule_code) = true
    · rw [if_pos h] at hc
      have hkeq : checkKey c = (obj.objType, obj.objId, rule.rule_code) :=
        (upsert_cond_iff c obj rule).mp h
      rcases List.mem_cons.mp hc with h1 | h1
      · exact Or.inr ⟨c, h1⟩
      · refine Or.inl ⟨List.mem_cons.mpr (Or.inr h1), ?_⟩
        intro he
        exact hkc (by
          rw [← hkeq] at he
          exact he ▸ List.mem_map_of_mem checkKey h1)
    · rw [if_neg h] at hc
      rcases List.mem_cons.mp hc with h1 | h1
      · subst h1
        refine Or.inl ⟨List.mem_cons.mpr (Or.inl rfl), ?_⟩
        intro he
        exact h ((upsert_cond_iff c' obj rule).mpr he)
      · rcases ih hnr h1 with ⟨hm, hk⟩ | hs
        · exact Or.inl ⟨List.mem_cons.mpr (Or.inr hm), hk⟩
        · exact Or.inr hs

lemma cocStep_checks (now today : Int) (obj : DomainObject)
    (acc : ObjCheckResults × EngineState) (r : ComplianceRule) :
    ((cocStep now today obj acc r).2).checks =
      upsertCheck now today obj r acc.2.checks := rfl

lemma cocStep_objects (now today : Int) (obj : DomainObject)
    (acc : ObjCheckResults × EngineState) (r : ComplianceRule) :
    ((cocStep now today obj acc r).2).objects = acc.2.objects := rfl

/-- The per-object rule loop does not touch the object store. -/
lemma coc_fold_objects (now today : Int) (obj : DomainObject)
    (rules : List ComplianceRule) (res : ObjCheckResults) (st : EngineState) :
    ((rules.foldl (cocStep now today obj) (res, st)).2).objects = st.objects := by
  induction rules generalizing res st with
  | nil => rfl
  | cons r t ih =>
    simp only [List.foldl_cons]
    rw [show cocStep now today obj (res, st) r =
      ((cocStep now today obj (res, st) r).1, (cocStep now today obj (res, st) r).2) from rfl]
    rw [ih]
    rfl

/-- The per-object rule loop preserves distinctness of check keys. -/
lemma coc_fold_nodup (now today : Int) (obj : DomainObject)
    (rules : List ComplianceRule) (res : ObjCheckResults) (st : EngineState)
    (hn : (st.checks.map checkKey).Nodup) :
    (((rules.foldl (cocStep now today obj) (res, st)).2).checks.map checkKey).Nodup := by
  induction rules generalizing res st with
  | nil => exact hn
  | cons r t ih =>
    simp only [List.foldl_cons]
    rw [show cocStep now today obj (res, st) r =
      ((cocStep now today obj (res, st) r).1, (cocStep now today obj (res, st) r).2) from rfl]
    exact ih _ _ (by
      rw [cocStep_checks]
      exact upsert_nodup now today obj r st.checks hn)

/-- After the per-object rule loop, with distinct keys and nonzero rule
frequencies, every stored check is either an untouched original off all the
processed keys, or is freshly stamped and hence not overdue. -/
lemma coc_fold_mem (now today : Int) (obj : DomainObject) :
    ∀ (rules : List ComplianceRule) (res : ObjCheckResults) (st : EngineState),
      (st.checks.map checkKey).Nodup →
      (∀ r ∈ rules, r.check_frequency_hours ≠ 0) →
      ∀ c' ∈ ((rules.foldl (cocStep now today obj) (res, st)).2).checks,
        (c' ∈ st.checks ∧ ∀ r ∈ rules,
          checkKey c' ≠ (obj.objType, obj.objId, r.rule_code)) ∨
        is_overdue_for now c' = false := by
  intro rules
  induction rules with
  | nil =>
    intro res st _ _ c' hc'
    exact Or.inl ⟨hc', by simp⟩
  | cons r t ih =>
    intro res st hn hf c' hc'
    simp only [List.foldl_cons] at hc'
    rw [show cocStep now today obj (res, st) r =
      ((cocStep now today obj (res, st) r).1, (cocStep now today obj (res, st) r).2) from rfl] at hc'
    have hn1 : ((cocStep now today obj (res, st) r).2.checks.map checkKey).Nodup := by
      rw [cocStep_checks]
      exact upsert_nodup now today obj r st.checks hn
    rcases ih _ _ hn1 (fun r' hr' => hf r' (List.mem_cons.mpr (Or.inr hr')))
        c' hc' with ⟨hm1, hk1⟩ | hov
    · have hm1' : c' ∈ upsertCheck now today obj r st.checks := hm1
      rcases upsert_mem now today obj r st.checks hn c' hm1' with
        ⟨hm0, hk0⟩ | ⟨c, rfl⟩
      · refine Or.inl ⟨hm0, ?_⟩
        intro r' hr'
        rcases List.mem_cons.mp hr' with h1 | h1
        · subst h1
          exact hk0
        · exact hk1 r' h1
      · exact Or.inr (stamp_not_overdue now today obj r c
          (hf r (List.mem_cons.mpr (Or.inl rfl))))
    · exact Or.inr hov

lemma coc_objects (now today : Int) (obj : DomainObject)
    (ro : Option (List ComplianceRule)) (st : EngineState) :
    ((check_object_compliance now today obj ro st).2).objects = st.objects := by
  unfold check_object_compliance
  exact coc_fold_objects now today obj _ _ st

lemma find_object_congr (st st' : EngineState) (k : String × Nat)
    (h : st.objects = st'.objects) : find_object st k = find_object st' k := by
  unfold find_object
  rw [h]

lemma find_object_key (s : EngineState) (k : String × Nat) (obj : DomainObject)
    (h : find_object s k = some obj) :
    obj.objType = k.1 ∧ obj.objId = k.2 := by
  unfold find_object at h
  have := List.find?_some h
  simp at this
  exact this

/-- runStep does not touch the object store. -/
lemma runStep_objects (now today : Int) (overdue : List ComplianceCheck)
    (st : EngineState) (k : String × Nat) :
    (runStep now today overdue st k).objects = st.objects := by
  unfold runStep
  cases h : find_object st k with
  | none => rfl
  | some obj => exact coc_objects now today obj _ st

/-- runStep preserves distinctness of check keys. -/
lemma runStep_nodup (now today : Int) (overdue : List ComplianceCheck)
    (st : EngineState) (k : String × Nat)
    (hn : (st.checks.map checkKey).Nodup) :
    ((runStep now today overdue st k).checks.map checkKey).Nodup := by
  unfold runStep
  cases h : find_object st k with
  | none => exact hn
  | some obj =>
    unfold check_object_compliance
    exact coc_fold_nodup now today obj _ _ st hn

/-- Every rule grouped under a key comes from an overdue check. -/
lemma rules_for_key_mem (overdue : List ComplianceCheck) (k : String × Nat)
    (r : ComplianceRule) (h : r ∈ rules_for_key overdue k) :
    ∃ c ∈ overdue, c.rule = r := by
  unfold rules_for_key at h
  obtain ⟨c, hc, rfl⟩ := List.mem_map.mp h
  exact ⟨c, (List.mem_filter.mp hc).1, rfl⟩

/-- An overdue check contributes its own rule to its own key group. -/
lemma self_rule_mem (overdue : List ComplianceCheck) (c : ComplianceCheck)
    (hc : c ∈ overdue) :
    c.rule ∈ rules_for_key overdue (c.content_type, c.object_id) := by
  unfold rules_for_key
  exact List.mem_map.mpr ⟨c, List.mem_filter.mpr ⟨hc, by simp⟩, rfl⟩

/-- First-appearance deduplication preserves membership. -/
lemma firstKeys_mem (l : List (String × Nat)) (x : String × Nat) :
    x ∈ firstKeys l ↔ x ∈ l := by
  cases l with
  | nil => simp [firstKeys]
  | cons k rest =>
    rw [firstKeys]
    constructor
    · intro hx
      rcases List.mem_cons.mp hx with h1 | h1
      · simp [h1]
      · have h2 := (firstKeys_mem (rest.filter (fun y => y != k)) x).mp h1
        have hx2 := List.mem_filter.mp h2
        exact List.mem_cons.mpr (Or.inr hx2.1)
    · intro hx
      rcases List.mem_cons.mp hx with h1 | h1
      · exact List.mem_cons.mpr (Or.inl h1)
      · by_cases he : x = k
        · exact List.mem_cons.mpr (Or.inl he)
        · refine List.mem_cons.mpr (Or.inr ?_)
          refine (firstKeys_mem _ x).mpr ?_
          exact List.mem_filter.mpr ⟨h1, by simp [he]⟩
termination_by l.length
decreasing_by
  all_goals
    simp only [List.length_cons]
    exact Nat.lt_succ_of_le (List.length_filter_le _ _)

/-- After the grouped fold of the scheduled run, with distinct keys, nonzero
frequencies for the grouped rules, and all keyed objects resolvable, every
stored check is an untouched original off all processed group keys, or is
not overdue. -/
lemma run_fold_mem (now today : Int) (overdue : List ComplianceCheck) :
    ∀ (keys : List (String × Nat)) (st : EngineState),
      (st.checks.map checkKey).Nodup →
      (∀ k ∈ keys, ∀ r ∈ rules_for_key overdue k,
        r.check_frequency_hours ≠ 0) →
      (∀ k ∈ keys, (find_object st k).isSome = true) →
      ∀ c' ∈ (keys.foldl (runStep now today overdue) st).checks,
        (c' ∈ st.checks ∧ ∀ k ∈ keys, ∀ r ∈ rules_for_key overdue k,
          checkKey c' ≠ (k.1, k.2, r.rule_code)) ∨
        is_overdue_for now c' = false := by
  intro keys
  induction keys with
  | nil =>
    intro st _ _ _ c' hc'
    exact Or.inl ⟨hc', by simp⟩
  | cons k rest ih =>
    intro st hn hf hres c' hc'
    simp only [List.foldl_cons] at hc'
    have hn1 : ((runStep now today overdue st k).checks.map checkKey).Nodup :=
      runStep_nodup now today overdue st k hn
    have hres1 : ∀ k' ∈ rest, (find_object (runStep now today overdue st k) k').isSome = true := by
      intro k' hk'
      rw [find_object_congr _ st _ (runStep_objects now today overdue st k)]
      exact hres k' (List.mem_cons.mpr (Or.inr hk'))
    rcases ih (runStep now today overdue st k) hn1
        (fun k' hk' => hf k' (List.mem_cons.mpr (Or.inr hk'))) hres1 c' hc' with
      ⟨hm1, hk1⟩ | hov
    · -- c' survived the rest of the fold untouched; analyse the head step
      unfold runStep at hm1
      cases hobj : find_object st k with
      | none =>
        rw [hobj] at hm1
        have := hres k (List.mem_cons.mpr (Or.inl rfl))
        rw [hobj] at this
        cases this
      | some obj =>
        rw [hobj] at hm1
        obtain ⟨hty, hid⟩ := find_object_key st k obj hobj
        unfold check_object_compliance at hm1
        rcases coc_fold_mem now today obj (rules_for_key overdue k) _ st hn
            (hf k (List.mem_cons.mpr (Or.inl rfl))) c' hm1 with ⟨hm0, hk0⟩ | hov0
        · refine Or.inl ⟨hm0, ?_⟩
          intro k' hk' r hr
          rcases List.mem_cons.mp hk' with h1 | h1
          · subst h1
            have := hk0 r hr
            rwa [hty, hid] at this
          · exact hk1 k' h1 r hr
        · exact Or.inr hov0
    · exact Or.inr hov

/-! ## Claim theorem C9 -/

/-- C9: under the schema invariants (distinct check keys, every active rule
with a positive check frequency, every checked object resolvable), a
scheduled run leaves no check overdue - each processed pair gets its next
due moment pushed past now - so an immediately repeated run with the same
clock finds nothing due and changes nothing: the engine state, and in
particular every last_checked value, is identical after the second run. -/
theorem C9_run_due_idempotent (now today : Int) (s : EngineState)
    (hkeys : (s.checks.map checkKey).Nodup)
    (hfreq : ∀ c ∈ s.checks, c.rule.is_active = true →
      c.rule.check_frequency_hours ≠ 0)
    (hobj : ∀ c ∈ s.checks,
      (find_object s (c.content_type, c.object_id)).isSome = true) :
    get_overdue_checks now (run_scheduled_compliance_checks now today s) = [] ∧
    run_scheduled_compliance_checks now today
        (run_scheduled_compliance_checks now today s) =
      run_scheduled_compliance_checks now today s := by
  have hmain : get_overdue_checks now
      (run_scheduled_compliance_checks now today s) = [] := by
    unfold run_scheduled_compliance_checks get_overdue_checks
    rw [List.filter_eq_nil]
    intro c' hc'
    have hover : ∀ c ∈ get_overdue_checks now s, c ∈ s.checks ∧
        is_overdue_for now c = true := by
      intro c hc
      unfold get_overdue_checks at hc
      exact ⟨(List.mem_filter.mp hc).1, (List.mem_filter.mp hc).2⟩
    have hf : ∀ k ∈ firstKeys ((get_overdue_checks now s).map
        (fun c => (c.content_type, c.object_id))),
        ∀ r ∈ rules_for_key (get_overdue_checks now s) k,
          r.check_frequency_hours ≠ 0 := by
      intro k _ r hr
      obtain ⟨c, hc, rfl⟩ := rules_for_key_mem _ _ _ hr
      obtain ⟨hcs, hov⟩ := hover c hc
      have hact : c.rule.is_active = true := by
        unfold is_overdue_for at hov
        simp only [Bool.and_eq_true] at hov
        exact hov.2
      exact hfreq c hcs hact
    have hres : ∀ k ∈ firstKeys ((get_overdue_checks now s).map
        (fun c => (c.content_type, c.object_id))),
        (find_object s k).isSome = true := by
      intro k hk
      have hk2 := (firstKeys_mem _ k).mp hk
      obtain ⟨c, hc, rfl⟩ := List.mem_map.mp hk2
      exact hobj c (hover c hc).1
    rcases run_fold_mem now today (get_overdue_checks now s) _ s hkeys hf hres
        c' hc' with ⟨hm, havoid⟩ | hov
    · simp only [Bool.not_eq_true]
      by_contra hcon
      rw [Bool.not_eq_false] at hcon
      have hmem : c' ∈ get_overdue_checks now s := by
        unfold get_overdue_checks
        exact List.mem_filter.mpr ⟨hm, hcon⟩
      have hkmem : (c'.content_type, c'.object_id) ∈
          firstKeys ((get_overdue_checks now s).map
            (fun c => (c.content_type, c.object_id))) := by
        rw [firstKeys_mem]
        exact List.mem_map.mpr ⟨c', hmem, rfl⟩
      have := havoid (c'.content_type, c'.object_id) hkmem c'.rule
        (self_rule_mem _ c' hmem)
      exact this rfl
    · simp [hov]
  refine ⟨hmain, ?_⟩
  have hrun : ∀ s' : EngineState, get_overdue_checks now s' = [] →
      run_scheduled_compliance_checks now today s' = s' := by
    intro s' h
    unfold run_scheduled_compliance_checks
    rw [h]
    simp [firstKeys]
  exact hrun _ hmain

/-- Witness for C9 at a concrete state: one overdue check on an existing
object with an active 24-hour rule. -/
theorem C9_run_due_idempotent_witness :
    ((witState.checks.map checkKey).Nodup ∧
      (∀ c ∈ witState.checks, c.rule.is_active = true →
        c.rule.check_frequency_hours ≠ 0) ∧
      (∀ c ∈ witState.checks,
        (find_object witState (c.content_type, c.object_id)).isSome = true)) ∧
    get_overdue_checks 30 (run_scheduled_compliance_checks 30 1 witState) = [] ∧
    run_scheduled_compliance_checks 30 1
        (run_scheduled_compliance_checks 30 1 witState) =
      run_scheduled_compliance_checks 30 1 witState :=
  ⟨⟨by decide, by decide, by decide⟩,
    C9_run_due_idempotent 30 1 witState (by decide) (by decide) (by decide)⟩

end DroneComp
